import Mathlib

/-!
Verification of the lecture_to_notes pipeline core: a shallow embedding of
the validation quality gate, the stage-contract schemas, the checkpoint
pre-flight validation, and the orchestrator control flow, together with
theorems settling the specification claims.

Modelling conventions:
* Python floats are modelled as exact rationals; all numeric comparisons in
  the embedded checks are over the rationals.
* Pydantic model construction is modelled by mk functions returning Option:
  field constraints are checked first (in field order), then the model-level
  validators, mirroring pydantic semantics (mode-after validators run after
  field validation and may overwrite fields).
* Diagnostic-only payloads that no claim or control-flow decision depends on
  (the CheckResult.details dict, numeric interpolation inside human-readable
  message strings, progress callbacks, logging) are elided; message strings
  keep their discriminating prefixes (for example the Skipped prefix).
-/

namespace LectureToNotes

attribute [local semireducible] Rat.add Rat.mul Rat.inv Rat.sub

/-! ### Small helpers.  String manipulation is implemented over the
character list of the string so that every definition evaluates by
reduction; the semantics mirrors the Python string methods used by the
source (ASCII digit and core whitespace classes stand in for the unicode
classes, which the inputs of interest never leave). -/

/-- Split a character list at every character satisfying p (Python
re-split on a single-character class; pieces may be empty). -/
def splitOnPred (p : Char → Bool) : List Char → List (List Char)
  | [] => [[]]
  | c :: cs =>
    match splitOnPred p cs with
    | [] => [[]]
    | piece :: rest =>
      if p c then [] :: piece :: rest else (c :: piece) :: rest

/-- Python s.split(sep) for a nonempty separator: split at each
non-overlapping occurrence, scanning left to right. -/
def splitOnListAux (sep : List Char) : Nat → List Char → List (List Char)
  | 0, cs => [cs]
  | _, [] => [[]]
  | fuel + 1, c :: cs =>
    if sep.isPrefixOf (c :: cs) then
      [] :: splitOnListAux sep fuel ((c :: cs).drop sep.length)
    else
      match splitOnListAux sep fuel cs with
      | [] => [[c]]
      | piece :: rest => (c :: piece) :: rest

def pySplitOn (s sep : String) : List String :=
  if sep.data.isEmpty then [s]
  else (splitOnListAux sep.data s.data.length s.data).map String.mk

/-- Python str.strip(): drop whitespace from both ends. -/
def trimChars (cs : List Char) : List Char :=
  ((cs.dropWhile (fun c => c.isWhitespace)).reverse.dropWhile
    (fun c => c.isWhitespace)).reverse

def pyStrip (s : String) : String := String.mk (trimChars s.data)

def pyToLower (s : String) : String := String.mk (s.data.map Char.toLower)

def pyStartsWith (s pre : String) : Bool := pre.data.isPrefixOf s.data

/-- Python sep.join(l). -/
def joinSep (sep : String) : List String → String
  | [] => ""
  | [x] => x
  | x :: y :: xs => x ++ sep ++ joinSep sep (y :: xs)

/-- Three-digit zero padding, as the Python format spec 03d used for
checkpoint file names. -/
def pad3 (n : Nat) : String :=
  if n < 10 then "00" ++ toString n
  else if n < 100 then "0" ++ toString n
  else toString n

/-- Python str.split with no argument: split on whitespace runs, dropping
empty pieces. -/
def pyWords (s : String) : List String :=
  ((splitOnPred (fun c => c.isWhitespace) s.data).map String.mk).filter
    (fun w => w ≠ "")

def wordCount (s : String) : Nat := (pyWords s).length

/-- Python max over a list of rationals (the code only applies it to
nonempty lists; the empty case is given a default of 0). -/
def pyMax (l : List ℚ) : ℚ :=
  match l with
  | [] => 0
  | x :: xs => xs.foldl max x

/-- The count of the most frequent element of a list, as
Counter(l).most_common(1)[0][1] on a nonempty list (0 when empty). -/
def mostCommonCount (l : List String) : Nat :=
  (l.map (fun t => l.count t)).foldl max 0

/-- The most frequent element itself: Counter iterates keys in first-seen
order and most_common is a stable sort by descending count, so the winner is
the first element whose multiplicity is maximal. -/
def mostCommonText (l : List String) : String :=
  ((l.find? (fun t => l.count t = mostCommonCount l)).getD "")

/-! ### Validation output schema (schemas/validation_output.py) -/

/-- CheckSeverity: CRITICAL fails the pipeline, WARNING is logged. -/
inductive CheckSeverity where
  | critical
  | warning
  deriving DecidableEq, Repr

/-- CheckResult: result of a single validation check.  The details dict
(structured diagnostic data) is elided; check_name and message carry
min_length 1 constraints that every constructor in the code satisfies by
construction with literal nonempty strings. -/
structure CheckResult where
  check_name : String
  passed : Bool
  severity : CheckSeverity
  message : String
  deriving DecidableEq, Repr

structure ValidationReport where
  transcript_checks : List CheckResult
  enrichment_checks : List CheckResult
  overall_pass : Bool
  critical_failures : Nat
  warnings : Nat
  summary : String
  deriving DecidableEq, Repr

/-- Count of checks with passed false and severity CRITICAL, as in
ValidationReport.compute_counts. -/
def countCriticalFailures (checks : List CheckResult) : Nat :=
  checks.countP (fun c => !c.passed && c.severity == CheckSeverity.critical)

/-- Count of checks with passed false and severity WARNING. -/
def countWarningFailures (checks : List CheckResult) : Nat :=
  checks.countP (fun c => !c.passed && c.severity == CheckSeverity.warning)

/-- ValidationReport construction: pydantic validates the fields first
(critical_failures ge 0, warnings ge 0, summary min_length 1), then the
compute_counts model validator overwrites critical_failures, warnings and
overall_pass from the check lists, ignoring the values that were passed in. -/
def mkValidationReport (transcript_checks enrichment_checks : List CheckResult)
    (_overall_pass : Bool) (critical_failures warnings : Int) (summary : String) :
    Option ValidationReport :=
  if critical_failures < 0 then none
  else if warnings < 0 then none
  else if summary.length < 1 then none
  else
    let all_checks := transcript_checks ++ enrichment_checks
    let cf := countCriticalFailures all_checks
    let w := countWarningFailures all_checks
    some { transcript_checks := transcript_checks,
           enrichment_checks := enrichment_checks,
           overall_pass := cf == 0,
           critical_failures := cf,
           warnings := w,
           summary := summary }

/-! ### Transcript output schema (schemas/transcript_output.py) -/

/-- Segment: one transcription segment.  Field constraints: start ge 0,
text min_length 1, confidence in 0..1 when present; the validate_timing
model validator rejects end le start. -/
structure Segment where
  start : ℚ
  «end» : ℚ
  text : String
  speaker : Option String
  confidence : Option ℚ
  language : Option String
  deriving DecidableEq, Repr

def mkSegment (start «end» : ℚ) (text : String) (speaker : Option String)
    (confidence : Option ℚ) (language : Option String) : Option Segment :=
  if start < 0 then none
  else if text.length < 1 then none
  else if (match confidence with
           | some c => decide (c < 0) || decide (1 < c)
           | none => false) then none
  else if «end» ≤ start then none
  else some { start := start, «end» := «end», text := text, speaker := speaker,
              confidence := confidence, language := language }

/-- TranscriptOutput.  The vocabulary_log, detected_slokas and
post_processing_source fields are elided: they have always-satisfiable
defaults and neither the validators relevant to the claims nor any
validation check reads them. -/
structure TranscriptOutput where
  source_audio : String
  segments : List Segment
  full_text : String
  duration_seconds : ℚ
  language : String
  whisper_model : String
  speakers_detected : Nat
  summary : String
  deriving DecidableEq, Repr

/-- Python max(s.end for s in segments); only evaluated on nonempty lists. -/
def maxSegmentEnd (segments : List Segment) : ℚ :=
  pyMax (segments.map (fun s => s.«end»))

/-- TranscriptOutput construction: field constraints in declaration order,
then the validate_segments_within_duration model validator, which rejects a
maximum segment end exceeding the declared duration by more than 10 percent
(only when segments is nonempty and duration_seconds is positive). -/
def mkTranscriptOutput (source_audio : String) (segments : List Segment)
    (full_text : String) (duration_seconds : ℚ) (language whisper_model : String)
    (speakers_detected : Int) (summary : String) : Option TranscriptOutput :=
  if source_audio.length < 1 then none
  else if segments.length < 1 then none
  else if full_text.length < 20 then none
  else if duration_seconds < 0 then none
  else if whisper_model.length < 1 then none
  else if speakers_detected < 0 then none
  else if summary.length < 10 then none
  else if segments ≠ [] ∧ 0 < duration_seconds ∧
          duration_seconds * (11/10) < maxSegmentEnd segments then none
  else some { source_audio := source_audio, segments := segments,
              full_text := full_text, duration_seconds := duration_seconds,
              language := language, whisper_model := whisper_model,
              speakers_detected := speakers_detected.toNat, summary := summary }

/-! ### Enrichment output schema (schemas/enrichment_output.py) -/

/-- Reference: a scripture reference identified in the transcript.
Constraints: scripture min_length 1, verse min_length 1, canonical_ref
min_length 3, segment_index ge 0, context_text min_length 5. -/
structure Reference where
  scripture : String
  chapter : String
  verse : String
  canonical_ref : String
  segment_index : Nat
  context_text : String
  deriving DecidableEq, Repr

def mkReference (scripture chapter verse canonical_ref : String)
    (segment_index : Int) (context_text : String) : Option Reference :=
  if scripture.length < 1 then none
  else if verse.length < 1 then none
  else if canonical_ref.length < 3 then none
  else if segment_index < 0 then none
  else if context_text.length < 5 then none
  else some { scripture := scripture, chapter := chapter, verse := verse,
              canonical_ref := canonical_ref,
              segment_index := segment_index.toNat,
              context_text := context_text }

/-- The status literal of a VerificationResult. -/
inductive VerificationStatus where
  | verified
  | notFound
  | partMatch
  | cacheOnly
  deriving DecidableEq, Repr

/-- VerificationResult: result of verifying a reference against
vedabase.io.  The purely textual payload fields (devanagari, verse_text,
synonyms, purport_excerpt, cross_refs_in_purport, error) are elided; the
validate_verified_has_content validator needs only translation and
vedabase_url. -/
structure VerificationResult where
  reference : Reference
  status : VerificationStatus
  vedabase_url : Option String
  translation : Option String
  deriving DecidableEq, Repr

/-- Python truthiness of an optional string: None and the empty string are
both falsy, so "not self.translation" holds for none and some "". -/
def optStrFalsy (s : Option String) : Bool :=
  match s with
  | none => true
  | some t => t == ""

def mkVerificationResult (reference : Reference) (status : VerificationStatus)
    (vedabase_url translation : Option String) : Option VerificationResult :=
  if status == VerificationStatus.verified && optStrFalsy translation then none
  else if status == VerificationStatus.verified && optStrFalsy vedabase_url then none
  else some { reference := reference, status := status,
              vedabase_url := vedabase_url, translation := translation }

/-- GlossaryEntry (term min_length 1, definition min_length 5; category and
provenance fields elided as no validator or check reads them). -/
structure GlossaryEntry where
  term : String
  definition : String
  deriving DecidableEq, Repr

/-- ThematicTag (tag min_length 1, confidence in 0..1, evidence
min_length 5). -/
structure ThematicTag where
  tag : String
  confidence : ℚ
  evidence : String
  related_references : List String
  deriving DecidableEq, Repr

/-- ThematicIndex (primary_topic min_length 3). -/
structure ThematicIndex where
  themes : List ThematicTag
  primary_topic : String
  scripture_focus : Option String
  deriving DecidableEq, Repr

/-- Python round(x, 4) with round-half-to-even, over exact rationals. -/
def roundHalfEven (q : ℚ) : ℤ :=
  let f := Int.floor q
  if q - f < 1/2 then f
  else if (1:ℚ)/2 < q - f then f + 1
  else if f % 2 = 0 then f else f + 1

def round4 (q : ℚ) : ℚ := (roundHalfEven (q * 10000) : ℚ) / 10000

/-- EnrichedNotes.  The enrichment_source and saranagathi_mapping fields are
elided (defaulted literals no validator or check reads). -/
structure EnrichedNotes where
  source_transcript : String
  transcript_text : String
  references_found : List Reference
  verifications : List VerificationResult
  glossary : List GlossaryEntry
  thematic_index : ThematicIndex
  verification_rate : ℚ
  unverified_references : List Reference
  summary : String
  enriched_markdown : Option String
  deriving DecidableEq, Repr

/-- The set-difference test of validate_all_refs_have_verification: a found
reference is missing when its canonical_ref is in neither the verification
set nor the unverified set. -/
def refsMissingVerification (references_found : List Reference)
    (verifications : List VerificationResult)
    (unverified_references : List Reference) : List Reference :=
  references_found.filter (fun r =>
    (verifications.all (fun v => v.reference.canonical_ref ≠ r.canonical_ref)) &&
    (unverified_references.all (fun u => u.canonical_ref ≠ r.canonical_ref)))

/-- Count of verifications whose status is verified or cache_only, as in
compute_verification_rate. -/
def verifiedOrCachedCount (verifications : List VerificationResult) : Nat :=
  verifications.countP (fun v =>
    v.status == VerificationStatus.verified || v.status == VerificationStatus.cacheOnly)

/-- EnrichedNotes construction: field constraints (source_transcript
min_length 1, transcript_text min_length 20, verification_rate in 0..1,
summary min_length 10), then validate_all_refs_have_verification (reject a
found reference covered by neither verifications nor unverified_references),
then compute_verification_rate (overwrite verification_rate with
round(verified-or-cached / total, 4) when any reference was found). -/
def mkEnrichedNotes (source_transcript transcript_text : String)
    (references_found : List Reference) (verifications : List VerificationResult)
    (glossary : List GlossaryEntry) (thematic_index : ThematicIndex)
    (verification_rate : ℚ) (unverified_references : List Reference)
    (summary : String) (enriched_markdown : Option String) : Option EnrichedNotes :=
  if source_transcript.length < 1 then none
  else if transcript_text.length < 20 then none
  else if verification_rate < 0 then none
  else if 1 < verification_rate then none
  else if summary.length < 10 then none
  else if refsMissingVerification references_found verifications
            unverified_references ≠ [] then none
  else
    let total := references_found.length
    let rate := if 0 < total
      then round4 ((verifiedOrCachedCount verifications : ℚ) / (total : ℚ))
      else verification_rate
    some { source_transcript := source_transcript,
           transcript_text := transcript_text,
           references_found := references_found,
           verifications := verifications,
           glossary := glossary,
           thematic_index := thematic_index,
           verification_rate := rate,
           unverified_references := unverified_references,
           summary := summary,
           enriched_markdown := enriched_markdown }

/-! ### Validation thresholds (config/constants.py) -/

def VALIDATION_MIN_WORDS_PER_MINUTE : ℚ := 10

def VALIDATION_MAX_SEGMENT_GAP_SECONDS : ℚ := 30

def VALIDATION_MIN_AVG_CONFIDENCE : ℚ := 3/10

def VALIDATION_MIN_VERIFICATION_RATE : ℚ := 1/2

def VALIDATION_SLIDING_WINDOW_SIZE : Nat := 50

def VALIDATION_SLIDING_REPETITION_THRESHOLD : ℚ := 3/5

def VALIDATION_LANGUAGE_INCONSISTENCY_THRESHOLD : ℚ := 1/5

def VALIDATION_MARKDOWN_REPEAT_THRESHOLD : Nat := 5

def VALIDATION_MAX_SPECULATIVE_PHRASES : Nat := 3

def VALIDATION_MARKDOWN_MIN_SECTIONS : Nat := 5

def VALIDATION_DURATION_MISMATCH_THRESHOLD : ℚ := 1/10

def VALIDATION_SPECULATIVE_PHRASES : List String :=
  ["it is likely that", "this probably means", "one could interpret",
   "this might suggest", "it seems that the verse", "although not directly stated",
   "we can assume", "i believe this means", "in my understanding",
   "from my knowledge"]

/-! ### Transcription checks (agents/validation_agent.py) -/

/-- The stripped texts of one sliding window of segments. -/
def windowTexts (segments : List Segment) : List (List String) :=
  (List.range (segments.length - VALIDATION_SLIDING_WINDOW_SIZE + 1)).map
    (fun i => ((segments.drop i).take VALIDATION_SLIDING_WINDOW_SIZE).map
      (fun s => pyStrip s.text))

/-- most_common_count / window for one window. -/
def windowShare (texts : List String) : ℚ :=
  (mostCommonCount texts : ℚ) / (VALIDATION_SLIDING_WINDOW_SIZE : ℚ)

/-- The maximal repetition share over all windows (worst_ratio in the
source, accumulated from 0.0 by strict improvement, which is a fold of
max). -/
def worstShare (segments : List Segment) : ℚ :=
  ((windowTexts segments).map windowShare).foldl max 0

/-- Python _check_sliding_window_repetition. -/
def check_sliding_window_repetition (transcript : TranscriptOutput) : CheckResult :=
  if transcript.segments.length < VALIDATION_SLIDING_WINDOW_SIZE then
    { check_name := "sliding_window_repetition", passed := true,
      severity := CheckSeverity.critical,
      message := "Skipped: fewer segments than window size" }
  else
    let passed := decide (worstShare transcript.segments ≤
      VALIDATION_SLIDING_REPETITION_THRESHOLD)
    { check_name := "sliding_window_repetition", passed := passed,
      severity := CheckSeverity.critical,
      message := if passed then "OK: max repetition within threshold"
                 else "Repetition detected" }

/-- words_total / (duration_seconds / 60). -/
def wordsPerMinute (transcript : TranscriptOutput) : ℚ :=
  (wordCount transcript.full_text : ℚ) / (transcript.duration_seconds / 60)

/-- Python _check_content_density. -/
def check_content_density (transcript : TranscriptOutput) : CheckResult :=
  let duration_minutes := transcript.duration_seconds / 60
  if duration_minutes < 1/2 then
    { check_name := "content_density", passed := true,
      severity := CheckSeverity.critical,
      message := "Skipped: audio too short" }
  else
    let passed := decide (VALIDATION_MIN_WORDS_PER_MINUTE ≤ wordsPerMinute transcript)
    { check_name := "content_density", passed := passed,
      severity := CheckSeverity.critical,
      message := if passed then "OK: enough words per minute"
                 else "Low content density" }

/-- The list of inter-segment gaps, segments[i].start - segments[i-1].end. -/
def segmentGapList (segments : List Segment) : List ℚ :=
  (segments.zip segments.tail).map (fun p => p.2.start - p.1.«end»)

def largeGapCount (segments : List Segment) : Nat :=
  (segmentGapList segments).countP
    (fun g => VALIDATION_MAX_SEGMENT_GAP_SECONDS < g)

/-- Python _check_segment_gaps. -/
def check_segment_gaps (transcript : TranscriptOutput) : CheckResult :=
  if transcript.segments.length < 2 then
    { check_name := "segment_gap_analysis", passed := true,
      severity := CheckSeverity.warning,
      message := "Skipped: fewer than 2 segments" }
  else
    let passed := largeGapCount transcript.segments == 0
    { check_name := "segment_gap_analysis", passed := passed,
      severity := CheckSeverity.warning,
      message := if passed then "OK: no large gaps detected"
                 else "Large gaps detected" }

def presentConfidences (segments : List Segment) : List ℚ :=
  segments.filterMap (fun s => s.confidence)

/-- Python _check_confidence. -/
def check_confidence (transcript : TranscriptOutput) : CheckResult :=
  let confidences := presentConfidences transcript.segments
  if confidences.isEmpty then
    { check_name := "low_confidence", passed := true,
      severity := CheckSeverity.warning,
      message := "Skipped: no confidence scores available" }
  else
    let avg := confidences.sum / (confidences.length : ℚ)
    let passed := decide (VALIDATION_MIN_AVG_CONFIDENCE ≤ avg)
    { check_name := "low_confidence", passed := passed,
      severity := CheckSeverity.warning,
      message := if passed then "OK: average confidence" else "Low confidence" }

/-- Python _check_language_consistency. -/
def check_language_consistency (transcript : TranscriptOutput) : CheckResult :=
  let withLang := transcript.segments.filter (fun s => s.language.isSome)
  if withLang.isEmpty then
    { check_name := "language_consistency", passed := true,
      severity := CheckSeverity.warning,
      message := "Skipped: no per-segment language data" }
  else
    let mismatches := withLang.filter
      (fun s => s.language != some transcript.language)
    let frac := (mismatches.length : ℚ) / (withLang.length : ℚ)
    let passed := decide (frac ≤ VALIDATION_LANGUAGE_INCONSISTENCY_THRESHOLD)
    { check_name := "language_consistency", passed := passed,
      severity := CheckSeverity.warning,
      message := if passed then "OK: language mismatch within threshold"
                 else "Language inconsistency" }

/-! ### Enrichment checks -/

/-- Python _check_verification_rate. -/
def check_verification_rate (enriched : EnrichedNotes) : CheckResult :=
  if enriched.references_found.isEmpty then
    { check_name := "verification_rate", passed := true,
      severity := CheckSeverity.warning,
      message := "Skipped: no references found to verify" }
  else
    let passed := decide (VALIDATION_MIN_VERIFICATION_RATE ≤ enriched.verification_rate)
    { check_name := "verification_rate", passed := passed,
      severity := CheckSeverity.warning,
      message := if passed then "OK: verification rate" else "Low verification rate" }

def verifiedCanonicalRefs (enriched : EnrichedNotes) : List String :=
  enriched.verifications.map (fun v => v.reference.canonical_ref)

/-- The orphaned thematic references: cited by a theme, absent from the
verified set while that set is nonempty. -/
def orphanedThemeRefs (enriched : EnrichedNotes) : List String :=
  let verified := verifiedCanonicalRefs enriched
  (enriched.thematic_index.themes.flatMap (fun th => th.related_references)).filter
    (fun r => !(verified.contains r) && !verified.isEmpty)

/-- Python _check_cross_reference_consistency. -/
def check_cross_reference_consistency (enriched : EnrichedNotes) : CheckResult :=
  let passed := (orphanedThemeRefs enriched).isEmpty
  { check_name := "cross_reference_consistency", passed := passed,
    severity := CheckSeverity.warning,
    message := if passed then "OK: all thematic references are verified"
               else "Thematic references not in verified set" }

/-- Paragraph blocks of the enriched markdown: split on blank lines,
stripped, keeping blocks longer than 20 characters (which are in
particular nonempty). -/
def markdownParagraphs (md : String) : List String :=
  (pySplitOn md ("\n\n")).filterMap (fun p =>
    let q := pyStrip p
    if 20 < q.length then some q else none)

/-- Python _check_enriched_markdown_repetition. -/
def check_enriched_markdown_repetition (enriched : EnrichedNotes) : CheckResult :=
  match enriched.enriched_markdown with
  | none =>
    { check_name := "enriched_markdown_repetition", passed := true,
      severity := CheckSeverity.warning,
      message := "Skipped: no enriched markdown present" }
  | some md =>
    let paragraphs := markdownParagraphs md
    if paragraphs.length < 4 then
      { check_name := "enriched_markdown_repetition", passed := true,
        severity := CheckSeverity.warning,
        message := "OK: few paragraphs" }
    else
      let passed := decide (mostCommonCount paragraphs ≤
        VALIDATION_MARKDOWN_REPEAT_THRESHOLD)
      { check_name := "enriched_markdown_repetition", passed := passed,
        severity := CheckSeverity.warning,
        message := if passed then "OK: max paragraph repetition"
                   else "Markdown repetition" }

/-- Python _check_empty_enrichment (enriched_markdown is not None is truthy
even for the empty string, hence isSome). -/
def check_empty_enrichment (enriched : EnrichedNotes) : CheckResult :=
  let passed := !enriched.references_found.isEmpty ||
    !enriched.glossary.isEmpty || enriched.enriched_markdown.isSome
  { check_name := "empty_enrichment", passed := passed,
    severity := CheckSeverity.warning,
    message := if passed then "OK: enrichment has content" else "Empty enrichment" }

/-- Substring occurrence: a nonempty pattern occurs in s exactly when
splitting on it yields more than one piece. -/
def strContainsB (s pat : String) : Bool :=
  (pySplitOn s pat).length != 1

/-- Python _check_llm_speculative_content. -/
def check_llm_speculative_content (enriched : EnrichedNotes) : CheckResult :=
  match enriched.enriched_markdown with
  | none =>
    { check_name := "llm_speculative_content", passed := true,
      severity := CheckSeverity.warning,
      message := "Skipped: no enriched markdown present" }
  | some md =>
    let lower := pyToLower md
    let found := VALIDATION_SPECULATIVE_PHRASES.filter (fun p => strContainsB lower p)
    let passed := decide (found.length ≤ VALIDATION_MAX_SPECULATIVE_PHRASES)
    { check_name := "llm_speculative_content", passed := passed,
      severity := CheckSeverity.warning,
      message := if passed then "OK: speculative phrases within threshold"
                 else "Speculative content detected" }

/-! The verse-reference scanner for the pattern
(?:BG|SB|CC|NOI|ISO|BS)\s+\d+[\.\d]* used by re.findall.  The alternatives
are mutually exclusive at any given position (no prefix of one is a prefix
of another that also matches), the quantifiers are greedy with nothing
following them, and findall scans left to right taking non-overlapping
matches, advancing one character when no match starts at the current
position.  ASCII digit and core whitespace classes stand in for the Python
unicode classes. -/

def refPrefixes : List (List Char) :=
  [("BG").data, ("SB").data, ("CC").data, ("NOI").data, ("ISO").data, ("BS").data]

def tryPrefixes : List (List Char) → List Char → Option (List Char × List Char)
  | [], _ => none
  | p :: ps, cs =>
    if p.isPrefixOf cs then some (p, cs.drop p.length) else tryPrefixes ps cs

def matchRefAt (cs : List Char) : Option (List Char × List Char) :=
  match tryPrefixes refPrefixes cs with
  | none => none
  | some (pre, rest) =>
    let ws := rest.takeWhile (fun c => c.isWhitespace)
    if ws.isEmpty then none
    else
      let r1 := rest.drop ws.length
      let ds := r1.takeWhile (fun c => c.isDigit)
      if ds.isEmpty then none
      else
        let r2 := r1.drop ds.length
        let tl := r2.takeWhile (fun c => c.isDigit || c == ('.'))
        some (pre ++ ws ++ ds ++ tl, r2.drop tl.length)

def scanRefs : Nat → List Char → List String
  | 0, _ => []
  | _, [] => []
  | fuel + 1, c :: cs =>
    match matchRefAt (c :: cs) with
    | some (m, rest) => String.mk m :: scanRefs fuel rest
    | none => scanRefs fuel cs

def findAllRefs (s : String) : List String := scanRefs s.data.length s.data

/-- Python _check_unverified_refs_in_markdown.  set(findall(...)) is
modelled by first-occurrence deduplication; only membership and emptiness
of the result are consumed. -/
def check_unverified_refs_in_markdown (enriched : EnrichedNotes) : CheckResult :=
  match enriched.enriched_markdown with
  | none =>
    { check_name := "unverified_refs_in_markdown", passed := true,
      severity := CheckSeverity.warning,
      message := "Skipped: no enriched markdown present" }
  | some md =>
    let verified := verifiedCanonicalRefs enriched
    let markdown_refs := (findAllRefs md).eraseDups
    let untagged := markdown_refs.filter (fun r => !(verified.contains r))
    let passed := untagged.isEmpty
    { check_name := "unverified_refs_in_markdown", passed := passed,
      severity := CheckSeverity.warning,
      message := if passed then "OK: all verse references in markdown are verified"
                 else "Verse references in markdown not in verified set" }

/-- Python _check_enriched_markdown_sections. -/
def check_enriched_markdown_sections (enriched : EnrichedNotes) : CheckResult :=
  match enriched.enriched_markdown with
  | none =>
    { check_name := "enriched_markdown_sections", passed := true,
      severity := CheckSeverity.warning,
      message := "Skipped: no enriched markdown present" }
  | some md =>
    let headings := (pySplitOn md ("\n")).filter
      (fun line => pyStartsWith (pyStrip line) ("#"))
    let passed := decide (VALIDATION_MARKDOWN_MIN_SECTIONS ≤ headings.length)
    { check_name := "enriched_markdown_sections", passed := passed,
      severity := CheckSeverity.warning,
      message := if passed then "OK: sections found in enriched markdown"
                 else "Enriched markdown has too few sections" }

/-- Python _check_metadata_duration_consistency. -/
def check_metadata_duration_consistency (transcript : TranscriptOutput)
    (_enriched : EnrichedNotes) : CheckResult :=
  if transcript.segments.isEmpty then
    { check_name := "metadata_duration_consistency", passed := true,
      severity := CheckSeverity.warning,
      message := "Skipped: no segments" }
  else if transcript.duration_seconds ≤ 0 then
    { check_name := "metadata_duration_consistency", passed := true,
      severity := CheckSeverity.warning,
      message := "Skipped: no duration reported" }
  else
    let mismatch := |maxSegmentEnd transcript.segments - transcript.duration_seconds| /
      transcript.duration_seconds
    let passed := decide (mismatch ≤ VALIDATION_DURATION_MISMATCH_THRESHOLD)
    { check_name := "metadata_duration_consistency", passed := passed,
      severity := CheckSeverity.warning,
      message := if passed then "OK: duration consistent" else "Duration mismatch" }

/-! ### Pipeline entry point (run_validation_pipeline) -/

/-- Python _build_summary. -/
def buildSummary (checks : List CheckResult) : String :=
  let failed := checks.filter (fun c => !c.passed)
  if failed.isEmpty then
    "All " ++ toString checks.length ++ " validation checks passed."
  else
    let critical := failed.filter (fun c => c.severity == CheckSeverity.critical)
    let warnings := failed.filter (fun c => c.severity == CheckSeverity.warning)
    let parts :=
      (if critical.isEmpty then [] else
        [toString critical.length ++ " CRITICAL: " ++
          joinSep ("; ") (critical.map (fun c => c.check_name))]) ++
      (if warnings.isEmpty then [] else
        [toString warnings.length ++ " WARNING: " ++
          joinSep ("; ") (warnings.map (fun c => c.check_name))])
    "Validation failed — " ++ joinSep (". ") parts ++ "."

/-- The full check battery in execution order. -/
def allValidationChecks (transcript : TranscriptOutput)
    (enriched : EnrichedNotes) : List CheckResult :=
  [check_sliding_window_repetition transcript,
   check_content_density transcript,
   check_segment_gaps transcript,
   check_confidence transcript,
   check_language_consistency transcript,
   check_verification_rate enriched,
   check_cross_reference_consistency enriched,
   check_enriched_markdown_repetition enriched,
   check_empty_enrichment enriched,
   check_llm_speculative_content enriched,
   check_unverified_refs_in_markdown enriched,
   check_enriched_markdown_sections enriched,
   check_metadata_duration_consistency transcript enriched]

def transcriptCheckNames : List String :=
  ["sliding_window_repetition", "content_density", "segment_gap_analysis",
   "low_confidence", "language_consistency", "metadata_duration_consistency"]

/-- Python run_validation_pipeline: build the battery, partition the
results, assemble the report through the pydantic constructor (which
derives the aggregate fields), raise ValidationError(summary) when
overall_pass is false, and otherwise return the report.  Raising is
modelled as Except.error carrying the exception message. -/
def runValidationPipeline (transcript : TranscriptOutput)
    (enriched : EnrichedNotes) : Except String ValidationReport :=
  let all_checks := allValidationChecks transcript enriched
  let transcript_checks := all_checks.filter
    (fun c => transcriptCheckNames.contains c.check_name)
  let enrichment_checks := all_checks.filter
    (fun c => !(transcriptCheckNames.contains c.check_name))
  let summary := buildSummary all_checks
  match mkValidationReport transcript_checks enrichment_checks true 0 0 summary with
  | none => Except.error ("SchemaValidationError")
  | some report =>
    if report.overall_pass then Except.ok report
    else Except.error summary

/-! ### Download manifest (schemas/download_output.py), reduced to the
fields the orchestrator and the checkpoint pre-flight read. -/

structure DownloadResult where
  url : String
  order : Nat
  success : Bool
  audio_path : Option String
  original_path : Option String
  error : Option String
  deriving DecidableEq, Repr

structure DownloadManifest where
  results : List DownloadResult
  deriving DecidableEq, Repr

/-- len([r for r in manifest.results if r.success]). -/
def successCount (m : DownloadManifest) : Nat :=
  m.results.countP (fun r => r.success)

/-! ### Checkpoint store (checkpoint.py).  File names are relative to the
run directory; CHECKPOINT_DIR_NAME is "checkpoints". -/

def manifestPath : String := "checkpoints/manifest.json"

def transcriptPath (order : Nat) : String :=
  "checkpoints/url_" ++ pad3 order ++ "_transcript.json"

def enrichedPath (order : Nat) : String :=
  "checkpoints/url_" ++ pad3 order ++ "_enriched.json"

def validationPath (order : Nat) : String :=
  "checkpoints/url_" ++ pad3 order ++ "_validation.json"

def bookOutputPath : String := "checkpoints/book_output.json"

/-- The observable checkpoint directory: which files exist, and the parsed
content of manifest.json when it exists. -/
structure CkptFS where
  files : List String
  manifestData : DownloadManifest

/-- The two raise sites of validate_checkpoints_for_from_agent: the early
raise when the manifest is absent and no url_count was supplied, and the
aggregated raise enumerating the collected missing paths. -/
inductive CkptError where
  | manifestMissingNoCount (from_agent : Nat) (path : String)
  | missingFiles (from_agent : Nat) (paths : List String)
  deriving DecidableEq, Repr

/-- The checkpoint paths named by the error message of each raise site. -/
def ckptErrPaths (e : CkptError) : List String :=
  match e with
  | CkptError.manifestMissingNoCount _ p => [p]
  | CkptError.missingFiles _ ps => ps

/-- The url_count the function works with: the supplied value, or the
successful-entry count of the loaded manifest when the manifest file
exists. -/
def resolvedCount (fs : CkptFS) (url_count : Option Nat) : Option Nat :=
  match url_count with
  | some n => some n
  | none =>
    if fs.files.contains manifestPath
    then some (successCount fs.manifestData) else none

/-- The missing list the source accumulates once the count is known: the
manifest entry first, then the per-source transcript files (agent 3 and
later), the per-source enriched files (agent 4 and later), and
book_output.json (agent 5). -/
def collectMissing (from_agent : Nat) (fs : CkptFS) (n : Nat) : List String :=
  (if fs.files.contains manifestPath then [] else [manifestPath]) ++
  (if 3 ≤ from_agent then
    (((List.range n).map (fun i => transcriptPath (i+1))).filter
      (fun p => !(fs.files.contains p)))
   else []) ++
  (if 4 ≤ from_agent then
    (((List.range n).map (fun i => enrichedPath (i+1))).filter
      (fun p => !(fs.files.contains p)))
   else []) ++
  (if 5 ≤ from_agent then
    (if fs.files.contains bookOutputPath then [] else [bookOutputPath])
   else [])

/-- Python validate_checkpoints_for_from_agent.  Mirrors the source order:
return early below agent 2; record the manifest as missing or infer
url_count from it; raise the early error when the count is still unknown;
collect the missing transcript, enriched and book files; raise the
aggregated error when anything is missing. -/
def validate_checkpoints_for_from_agent (from_agent : Nat) (fs : CkptFS)
    (url_count : Option Nat) : Except CkptError Unit :=
  if from_agent < 2 then Except.ok ()
  else
    match resolvedCount fs url_count with
    | none => Except.error (CkptError.manifestMissingNoCount from_agent manifestPath)
    | some n =>
      let missing := collectMissing from_agent fs n
      if missing.isEmpty then Except.ok ()
      else Except.error (CkptError.missingFiles from_agent missing)

/-- The checkpoint files the claim requires for resuming at from_agent with
n sources, in the order the source collects them. -/
def requiredCheckpointFiles (from_agent n : Nat) : List String :=
  [manifestPath] ++
  (if 3 ≤ from_agent then (List.range n).map (fun i => transcriptPath (i+1)) else []) ++
  (if 4 ≤ from_agent then (List.range n).map (fun i => enrichedPath (i+1)) else []) ++
  (if 5 ≤ from_agent then [bookOutputPath] else [])

/-! ### Pipeline state (schemas/pipeline_state.py).  URLStatus is embedded
with exactly the members the enum defines.  The orchestrator source also
refers to URLStatus.VALIDATING and URLStatus.VALIDATED, which this enum does
not define: in Python those attribute accesses raise AttributeError at run
time, which the embedding of the orchestrator models explicitly at the
corresponding program points. -/

inductive URLStatus where
  | pending
  | downloading
  | downloaded
  | transcribing
  | transcribed
  | enriching
  | enriched
  | compiling
  | compiled
  | pdf_generating
  | pdf_generated
  | failed
  deriving DecidableEq, Repr

structure PerURLState where
  url : String
  order : Nat
  status : URLStatus
  audio_path : Option String
  error : Option String
  deriving DecidableEq, Repr

/-- An entry of PipelineState.errors: the orchestrator appends dicts keyed
either by url or by phase. -/
inductive ErrorEntry where
  | urlError (url : String) (msg : String)
  | phaseError (phase : String) (msg : String)
  deriving DecidableEq, Repr

/-! ### Compiler (tools/chapter_organizer.py multi mode and
agents/compiler_agent.py), reduced to the chapter structure; the markdown
formatting, glossary and index assembly and the file writes are rendering
collaborators no claim reads. -/

structure Chapter where
  number : Nat
  title : String
  source_url : String
  duration_seconds : ℚ
  verse_references : List String
  themes : List String
  deriving DecidableEq, Repr

structure CompilationReport where
  total_chapters : Nat
  deriving DecidableEq, Repr

structure BookOutput where
  title : String
  chapters : List Chapter
  report : CompilationReport
  deriving DecidableEq, Repr

/-- organize_chapters with mode multi: each (enriched, transcript) pair
becomes one chapter, numbered from 1 in list order, titled by the thematic
primary topic, with the transcript source as source_url. -/
def organizeChaptersMulti (enriched_list : List EnrichedNotes)
    (transcript_list : List TranscriptOutput) : List Chapter :=
  (enriched_list.zip transcript_list).enum.map (fun p =>
    { number := p.1 + 1,
      title := p.2.1.thematic_index.primary_topic,
      source_url := p.2.2.source_audio,
      duration_seconds := p.2.2.duration_seconds,
      verse_references := p.2.1.references_found.map (fun r => r.canonical_ref),
      themes := p.2.1.thematic_index.themes.map (fun t => t.tag) })

/-- run_compiler_pipeline in multi mode, reduced to chapter organization and
the report whose total_chapters is the chapter count. -/
def runCompilerPipelineMulti (enriched_list : List EnrichedNotes)
    (transcript_list : List TranscriptOutput) (title : String) :
    Except String BookOutput :=
  if enriched_list.isEmpty then Except.error ("No enriched notes to compile")
  else
    let chapters := organizeChaptersMulti enriched_list transcript_list
    if chapters.isEmpty then Except.error ("No chapters could be organized")
    else Except.ok { title := title, chapters := chapters,
                     report := { total_chapters := chapters.length } }

/-! ### Orchestrator, multi-URL fan-out/fan-in (orchestrator.py
run_multi_url_pipeline), embedded for a fresh run (from_agent 1, PDF off).
The download, transcription and enrichment stage runners are collaborator
parameters; validation is the embedded gate.  The trace records the
checkpoint files written (in order), the accumulated PipelineState.errors,
the per-url states, and the returned value or raised exception. -/

structure MultiRunTrace where
  saved : List String
  errors : List ErrorEntry
  states : List PerURLState
  result : Except String BookOutput

def runMultiUrlPipeline (urls : List String) (title : String)
    (download : List String → DownloadManifest)
    (transcribe : String → Except String TranscriptOutput)
    (enrich : TranscriptOutput → Except String EnrichedNotes) : MultiRunTrace :=
  if urls.isEmpty then
    { saved := [], errors := [], states := [],
      result := Except.error ("No URLs provided") }
  else
    -- Phase 1: download all, save the manifest, mark each url state from the
    -- first manifest result with a matching url.
    let manifest := download urls
    let states1 : List PerURLState := urls.enum.map (fun p =>
      match (manifest.results.filter (fun r => r.url == p.2)).head? with
      | some r =>
        if r.success then
          { url := p.2, order := p.1 + 1, status := URLStatus.downloaded,
            audio_path := r.audio_path, error := none }
        else
          { url := p.2, order := p.1 + 1, status := URLStatus.failed,
            audio_path := none, error := some (r.error.getD "") }
      | none =>
        { url := p.2, order := p.1 + 1, status := URLStatus.failed,
          audio_path := none, error := some ("Not in download results") })
    let errors1 := states1.filterMap (fun s =>
      if s.status == URLStatus.failed then
        some (ErrorEntry.urlError s.url (s.error.getD "")) else none)
    let saved1 := [manifestPath]
    let successful := states1.filter (fun s => s.status == URLStatus.downloaded)
    if successful.isEmpty then
      { saved := saved1, errors := errors1, states := states1,
        result := Except.error ("All downloads failed") }
    else
      -- Phase 2: transcribe each successful download; per-source failures
      -- are recorded and the batch continues.
      let outcomes2 := successful.map (fun s => (s, transcribe (s.audio_path.getD "")))
      let pairs := outcomes2.filterMap (fun o =>
        match o.2 with | Except.ok t => some (o.1, t) | Except.error _ => none)
      let saved2 := outcomes2.filterMap (fun o =>
        match o.2 with
        | Except.ok _ => some (transcriptPath o.1.order)
        | Except.error _ => none)
      let errors2 := outcomes2.filterMap (fun o =>
        match o.2 with
        | Except.ok _ => none
        | Except.error e => some (ErrorEntry.urlError o.1.url e))
      let states2 := states1.map (fun st =>
        match (outcomes2.find? (fun o => o.1.order == st.order)) with
        | some o =>
          match o.2 with
          | Except.ok _ => { st with status := URLStatus.transcribed }
          | Except.error e => { st with status := URLStatus.failed, error := some e }
        | none => st)
      if pairs.isEmpty then
        { saved := saved1 ++ saved2, errors := errors1 ++ errors2, states := states2,
          result := Except.error ("All transcriptions failed") }
      else
        -- Phase 3: enrich each transcript, same per-source tolerance.  The
        -- surviving enriched notes and transcripts are collected into two
        -- parallel lists that no longer carry the source order.
        let outcomes3 := pairs.map (fun p => (p.1, p.2, enrich p.2))
        let enriched_list := outcomes3.filterMap (fun o =>
          match o.2.2 with | Except.ok en => some en | Except.error _ => none)
        let transcript_list := outcomes3.filterMap (fun o =>
          match o.2.2 with | Except.ok _ => some o.2.1 | Except.error _ => none)
        let saved3 := outcomes3.filterMap (fun o =>
          match o.2.2 with
          | Except.ok _ => some (enrichedPath o.1.order)
          | Except.error _ => none)
        let errors3 := outcomes3.filterMap (fun o =>
          match o.2.2 with
          | Except.ok _ => none
          | Except.error e => some (ErrorEntry.urlError o.1.url e))
        let states3 := states2.map (fun st =>
          match (outcomes3.find? (fun o => o.1.order == st.order)) with
          | some o =>
            match o.2.2 with
            | Except.ok _ => { st with status := URLStatus.enriched }
            | Except.error e => { st with status := URLStatus.failed, error := some e }
          | none => st)
        if enriched_list.isEmpty then
          { saved := saved1 ++ saved2 ++ saved3,
            errors := errors1 ++ errors2 ++ errors3, states := states3,
            result := Except.error ("All enrichments failed") }
        else
          -- Phase 3.5: validate each surviving pair; the checkpoint is keyed
          -- by the position in the surviving zip (i + 1), exactly as the
          -- source writes order=i+1 from enumerate(zip(...)).
          let outcomes35 := ((enriched_list.zip transcript_list).enum).map (fun q =>
            (q.1, q.2.1, q.2.2, runValidationPipeline q.2.2 q.2.1))
          let validated_enriched := outcomes35.filterMap (fun o =>
            match o.2.2.2 with | Except.ok _ => some o.2.1 | Except.error _ => none)
          let validated_transcripts := outcomes35.filterMap (fun o =>
            match o.2.2.2 with | Except.ok _ => some o.2.2.1 | Except.error _ => none)
          let saved35 := outcomes35.filterMap (fun o =>
            match o.2.2.2 with
            | Except.ok _ => some (validationPath (o.1 + 1))
            | Except.error _ => none)
          let errors35 := outcomes35.filterMap (fun o =>
            match o.2.2.2 with
            | Except.ok _ => none
            | Except.error e => some (ErrorEntry.phaseError ("validation") e))
          if validated_enriched.isEmpty then
            { saved := saved1 ++ saved2 ++ saved3 ++ saved35,
              errors := errors1 ++ errors2 ++ errors3 ++ errors35, states := states3,
              result := Except.error ("All outputs failed validation") }
          else
            -- Phase 4: compile once over the surviving set and save the book.
            match runCompilerPipelineMulti validated_enriched validated_transcripts title with
            | Except.error e =>
              { saved := saved1 ++ saved2 ++ saved3 ++ saved35,
                errors := errors1 ++ errors2 ++ errors3 ++ errors35, states := states3,
                result := Except.error e }
            | Except.ok _book =>
              -- orchestrator.py:571-572 then evaluates
              -- URLStatus.VALIDATED inside the status-update loop; the enum
              -- defines no such member, so the first loop iteration (the url
              -- state list is nonempty here) raises AttributeError and
              -- run_multi_url_pipeline never returns the book.
              { saved := saved1 ++ saved2 ++ saved3 ++ saved35 ++ [bookOutputPath],
                errors := errors1 ++ errors2 ++ errors3 ++ errors35, states := states3,
                result := Except.error ("AttributeError: VALIDATED") }

/-! ### Orchestrator, single-URL (orchestrator.py run_single_url_pipeline),
embedded with its from_agent resume parameter (PDF off).  The checkpoint
loads consume the parsed content of the run directory; the stage runners
are collaborator parameters.  Exceptions escaping a stage are wrapped by
the generic except clause into PipelineError with the message
"Pipeline failed for url: cause", while PipelineError itself re-raises
unchanged. -/

structure SingleRunTrace where
  saved : List String
  result : Except String BookOutput

def runSingleUrlPipeline (url : String) (from_agent : Nat) (fs : CkptFS)
    (download : List String → DownloadManifest)
    (transcribe : String → Except String TranscriptOutput)
    (enrich : TranscriptOutput → Except String EnrichedNotes)
    (loadedManifest : Option DownloadManifest)
    (loadedTranscript : Option TranscriptOutput)
    (loadedEnriched : Option EnrichedNotes) : SingleRunTrace :=
  if from_agent < 1 ∨ 5 < from_agent then
    { saved := [], result := Except.error ("--from-agent must be between 1 and 5") }
  else if 1 < from_agent ∧
      (match validate_checkpoints_for_from_agent from_agent fs (some 1) with
       | Except.ok _ => false
       | Except.error _ => true) = true then
    { saved := [],
      result := Except.error ("Cannot start: missing checkpoint file(s)") }
  else
    -- Step 1: download or load the manifest and take the audio path of its
    -- first result.
    let step1 : Except String (String × List String) :=
      if from_agent ≤ 1 then
        let manifest := download [url]
        match manifest.results.head? with
        | none =>
          Except.error ("Download failed for " ++ url ++ ": Download failed")
        | some r =>
          if r.success then Except.ok (r.audio_path.getD "", [manifestPath])
          else Except.error ("Download failed for " ++ url ++ ": " ++ (r.error.getD ""))
      else
        match loadedManifest with
        | none => Except.error ("Cannot load manifest checkpoint")
        | some m =>
          match m.results.head? with
          | none => Except.error ("Pipeline failed for " ++ url ++
              ": list index out of range")
          | some r => Except.ok (r.audio_path.getD "", [])
    match step1 with
    | Except.error e => { saved := [], result := Except.error e }
    | Except.ok (audio_path, saved1) =>
      -- Step 2: transcribe or load the transcript.
      let step2 : Except String (TranscriptOutput × List String) :=
        if from_agent ≤ 2 then
          match transcribe audio_path with
          | Except.ok t => Except.ok (t, [transcriptPath 1])
          | Except.error e =>
            Except.error ("Pipeline failed for " ++ url ++ ": " ++ e)
        else
          match loadedTranscript with
          | none => Except.error ("Cannot load transcript checkpoint")
          | some t => Except.ok (t, [])
      match step2 with
      | Except.error e => { saved := saved1, result := Except.error e }
      | Except.ok (t, saved2) =>
        -- Step 3: enrich or load the enriched notes.
        let step3 : Except String (EnrichedNotes × List String) :=
          if from_agent ≤ 3 then
            match enrich t with
            | Except.ok en => Except.ok (en, [enrichedPath 1])
            | Except.error e =>
              Except.error ("Pipeline failed for " ++ url ++ ": " ++ e)
          else
            match loadedEnriched with
            | none => Except.error ("Cannot load enriched checkpoint")
            | some en => Except.ok (en, [])
        match step3 with
        | Except.error e => { saved := saved1 ++ saved2, result := Except.error e }
        | Except.ok (_en, saved3) =>
          -- Step 3.5: orchestrator.py:233 assigns
          -- url_state.status = URLStatus.VALIDATING before invoking the
          -- gate, but the URLStatus enum defines no VALIDATING member
          -- (schemas/pipeline_state.py), so the attribute access raises
          -- AttributeError("VALIDATING"); the generic except clause wraps
          -- it into a PipelineError.  run_validation_pipeline is never
          -- reached and no validation checkpoint is saved.
          { saved := saved1 ++ saved2 ++ saved3,
            result := Except.error ("Pipeline failed for " ++ url ++ ": VALIDATING") }

/-! ### Concrete instances and auxiliary predicates used by the
claim theorems. -/

def c1Check : CheckResult :=
  { check_name := "c", passed := false, severity := CheckSeverity.critical,
    message := "m" }

def c1Report : ValidationReport :=
  { transcript_checks := [c1Check], enrichment_checks := [],
    overall_pass := false, critical_failures := 1, warnings := 0,
    summary := "s" }

def segBasic : Segment :=
  { start := 0, «end» := 10, text := "t", speaker := none, confidence := none,
    language := none }

/-- The coverage discipline asserted by the claim, stated from its words:
every found reference appears, by canonical_ref, in exactly one of the two
lists. -/
def specExactlyOneCoverage (refs : List Reference)
    (vers : List VerificationResult) (unvers : List Reference) : Prop :=
  ∀ r ∈ refs,
    ((∃ v ∈ vers, v.reference.canonical_ref = r.canonical_ref) ∧
      ¬(∃ u ∈ unvers, u.canonical_ref = r.canonical_ref)) ∨
    (¬(∃ v ∈ vers, v.reference.canonical_ref = r.canonical_ref) ∧
      (∃ u ∈ unvers, u.canonical_ref = r.canonical_ref))

def c2Ref : Reference :=
  { scripture := "BG", chapter := "2", verse := "47", canonical_ref := "BG 2.47",
    segment_index := 0, context_text := "as the verse says" }

def c2Ver : VerificationResult :=
  { reference := c2Ref, status := VerificationStatus.notFound,
    vedabase_url := none, translation := none }

def c2Idx : ThematicIndex :=
  { themes := [], primary_topic := "Topic", scripture_focus := none }

def c8Exact10 : TranscriptOutput :=
  { source_audio := "a.wav", segments := [segBasic],
    full_text := "words words words words words",
    duration_seconds := 30, language := "en", whisper_model := "large-v3",
    speakers_detected := 0, summary := "a short talk" }

def c8Low : TranscriptOutput :=
  { source_audio := "a.wav", segments := [segBasic],
    full_text := "words words words words words",
    duration_seconds := 10000/333, language := "en", whisper_model := "large-v3",
    speakers_detected := 0, summary := "a short talk" }

def c8Short : TranscriptOutput :=
  { source_audio := "a.wav", segments := [segBasic],
    full_text := "just a very few words",
    duration_seconds := 10, language := "en", whisper_model := "large-v3",
    speakers_detected := 0, summary := "a short talk" }

def amaraText : String := "Subtitles by the Amara.org community"

/-- The concrete transcript of the claim: 60 identical 2-second segments
over a declared 120-second duration. -/
def c7T : TranscriptOutput :=
  { source_audio := "a.wav",
    segments := (List.range 60).map (fun i =>
      { start := 2 * (i : ℚ), «end» := 2 * (i : ℚ) + 2, text := amaraText,
        speaker := none, confidence := none, language := none }),
    full_text := joinSep (" ") (List.replicate 24 ("word")),
    duration_seconds := 120, language := "en", whisper_model := "large-v3",
    speakers_detected := 0, summary := "a repetitive talk" }

def eBasic : EnrichedNotes :=
  { source_transcript := "t.json", transcript_text := "hello transcript text line",
    references_found := [], verifications := [],
    glossary := [{ term := "bhakti", definition := "devotional service" }],
    thematic_index := { themes := [], primary_topic := "Topic",
                        scripture_focus := none },
    verification_rate := 0, unverified_references := [],
    summary := "summary ten", enriched_markdown := none }

def c7SlidingFail : CheckResult :=
  { check_name := "sliding_window_repetition", passed := false,
    severity := CheckSeverity.critical, message := "Repetition detected" }

def c7Summary : String :=
  "Validation failed — 1 CRITICAL: sliding_window_repetition."

def c7Small : TranscriptOutput :=
  { source_audio := "a.wav", segments := [segBasic],
    full_text := "just a very few words here",
    duration_seconds := 10, language := "en", whisper_model := "large-v3",
    speakers_detected := 0, summary := "a short talk" }

/-- Substring occurrence as an explicit decomposition. -/
def strContainsSub (s sub : String) : Prop :=
  ∃ pre post, s = pre ++ sub ++ post

def c3Seg : Segment :=
  { start := 0, «end» := 118, text := "hello", speaker := none,
    confidence := none, language := none }

def c3T : TranscriptOutput :=
  { source_audio := "a.wav", segments := [c3Seg],
    full_text := "only five words here now",
    duration_seconds := 120, language := "en", whisper_model := "large-v3",
    speakers_detected := 0, summary := "a short talk" }

def c4EmptyFS : CkptFS := { files := [], manifestData := { results := [] } }

def c4FS : CkptFS :=
  { files := [manifestPath, transcriptPath 1], manifestData := { results := [] } }

def c6Manifest : DownloadManifest :=
  { results :=
    [{ url := "u1", order := 1, success := true, audio_path := some ("a1.wav"),
       original_path := none, error := none },
     { url := "u2", order := 2, success := true, audio_path := some ("a2.wav"),
       original_path := none, error := none }] }

def c6Download : List String → DownloadManifest := fun _ => c6Manifest

def c6T2 : TranscriptOutput :=
  { source_audio := "a2.wav", segments := [segBasic],
    full_text := "hello there good people of the world",
    duration_seconds := 10, language := "en", whisper_model := "large-v3",
    speakers_detected := 0, summary := "a short talk" }

def c6Transcribe : String → Except String TranscriptOutput := fun a =>
  if a == "a1.wav" then Except.error ("Whisper OOM") else Except.ok c6T2

def c6Enrich : TranscriptOutput → Except String EnrichedNotes :=
  fun _ => Except.ok eBasic

def c5Manifest : DownloadManifest :=
  { results :=
    [{ url := "u1", order := 1, success := true, audio_path := some ("a1.wav"),
       original_path := none, error := none },
     { url := "u2", order := 2, success := true, audio_path := some ("a2.wav"),
       original_path := none, error := none },
     { url := "u3", order := 3, success := true, audio_path := some ("a3.wav"),
       original_path := none, error := none }] }

def c5Download : List String → DownloadManifest := fun _ => c5Manifest

def c5T1 : TranscriptOutput :=
  { source_audio := "a1.wav", segments := [segBasic],
    full_text := "hello there good people of the world",
    duration_seconds := 10, language := "en", whisper_model := "large-v3",
    speakers_detected := 0, summary := "a short talk" }

def c5T3 : TranscriptOutput :=
  { source_audio := "a3.wav", segments := [segBasic],
    full_text := "hello there good people of the world",
    duration_seconds := 10, language := "en", whisper_model := "large-v3",
    speakers_detected := 0, summary := "a short talk" }

def c5Transcribe : String → Except String TranscriptOutput := fun a =>
  if a == "a1.wav" then Except.ok c5T1
  else if a == "a3.wav" then Except.ok c5T3
  else Except.error ("Whisper OOM")

def c5Enrich : TranscriptOutput → Except String EnrichedNotes :=
  fun _ => Except.ok eBasic

/-- The book the compiler produces for the two surviving sources. -/
def c5Book : BookOutput :=
  { title := "T",
    chapters :=
      [{ number := 1, title := "Topic", source_url := "a1.wav",
         duration_seconds := 10, verse_references := [], themes := [] },
       { number := 2, title := "Topic", source_url := "a3.wav",
         duration_seconds := 10, verse_references := [], themes := [] }],
    report := { total_chapters := 2 } }

def c10Manifest : DownloadManifest :=
  { results :=
    [{ url := "u1", order := 1, success := true, audio_path := some ("a1.wav"),
       original_path := none, error := none }] }

def c10FS : CkptFS :=
  { files := [manifestPath, transcriptPath 1, enrichedPath 1, bookOutputPath],
    manifestData := c10Manifest }

def c10Download : List String → DownloadManifest := fun _ => c10Manifest

def c10T : TranscriptOutput :=
  { source_audio := "a1.wav", segments := [segBasic],
    full_text := "hello there good people of the world",
    duration_seconds := 10, language := "en", whisper_model := "large-v3",
    speakers_detected := 0, summary := "a short talk" }

def c10Transcribe : String → Except String TranscriptOutput :=
  fun _ => Except.ok c10T

def c10Enrich : TranscriptOutput → Except String EnrichedNotes :=
  fun _ => Except.ok eBasic

/-! ### Claim C1 -/

/-- C1: for every ValidationReport that is successfully constructed,
whatever values of critical_failures, warnings and overall_pass were passed
to the constructor, the stored critical_failures counts the checks in
transcript_checks plus enrichment_checks with passed false and severity
CRITICAL, the stored warnings counts those with passed false and severity
WARNING, and the stored overall_pass is critical_failures == 0; the
aggregate fields can never disagree with a recomputation from the stored
check lists. -/
theorem C1_report_aggregates_always_derived
    (tc ec : List CheckResult) (op : Bool) (cf w : Int) (s : String)
    (r : ValidationReport) (h : mkValidationReport tc ec op cf w s = some r) :
    r.critical_failures =
      countCriticalFailures (r.transcript_checks ++ r.enrichment_checks) ∧
    r.warnings =
      countWarningFailures (r.transcript_checks ++ r.enrichment_checks) ∧
    r.overall_pass = (r.critical_failures == 0) := by
  simp only [mkValidationReport] at h
  split_ifs at h
  all_goals
    first
      | exact Option.noConfusion h
      | (injection h with h2; subst h2; exact ⟨rfl, rfl, rfl⟩)

/-- Witness for C1: a report constructed with fabricated aggregates
(overall_pass true, critical_failures 3, warnings 4) stores the recomputed
values. -/
theorem C1_report_aggregates_always_derived_witness :
    c1Report.critical_failures =
      countCriticalFailures (c1Report.transcript_checks ++ c1Report.enrichment_checks) ∧
    c1Report.warnings =
      countWarningFailures (c1Report.transcript_checks ++ c1Report.enrichment_checks) ∧
    c1Report.overall_pass = (c1Report.critical_failures == 0) :=
  C1_report_aggregates_always_derived [c1Check] [] true 3 4 ("s") c1Report (by decide)

/-! ### Claim C9 -/

/-- C9: Segment construction fails whenever end is at most start;
TranscriptOutput construction with positive declared duration fails
whenever the maximum segment end exceeds 1.1 times the duration; and a
maximum segment end within that tolerance never causes a construction
failure (construction succeeds when the remaining field constraints
hold). -/
theorem C9_timing_invariants_enforced :
    (∀ (st en : ℚ) (text : String) (speaker : Option String)
       (conf : Option ℚ) (lang : Option String), en ≤ st →
       mkSegment st en text speaker conf lang = none) ∧
    (∀ (sa : String) (segs : List Segment) (ft : String) (dur : ℚ)
       (lang wm : String) (sd : Int) (sm : String), 0 < dur →
       dur * (11/10) < maxSegmentEnd segs →
       mkTranscriptOutput sa segs ft dur lang wm sd sm = none) ∧
    (∀ (sa : String) (segs : List Segment) (ft : String) (dur : ℚ)
       (lang wm : String) (sd : Int) (sm : String),
       1 ≤ sa.length → 1 ≤ segs.length → 20 ≤ ft.length → 0 ≤ dur →
       1 ≤ wm.length → 0 ≤ sd → 10 ≤ sm.length →
       maxSegmentEnd segs ≤ dur * (11/10) →
       (mkTranscriptOutput sa segs ft dur lang wm sd sm).isSome = true) := by
  refine ⟨?_, ?_, ?_⟩
  · intro st en text speaker conf lang hle
    simp only [mkSegment]
    split_ifs with h1 h2 h3
    all_goals rfl
  · intro sa segs ft dur lang wm sd sm hdur hexceed
    simp only [mkTranscriptOutput]
    split_ifs with h1 h2 h3 h4 h5 h6 h7 h8
    any_goals rfl
    exfalso
    apply h8
    refine ⟨?_, hdur, hexceed⟩
    intro hnil
    rw [hnil] at hexceed
    simp only [maxSegmentEnd, List.map_nil, pyMax] at hexceed
    nlinarith
  · intro sa segs ft dur lang wm sd sm h1 h2 h3 h4 h5 h6 h7 h8
    simp only [mkTranscriptOutput]
    split_ifs with g1 g2 g3 g4 g5 g6 g7 g8
    all_goals
      first
        | rfl
        | omega
        | linarith

/-- Witness for C9: a segment with end 1 at most start 2 is rejected; a
transcript whose only segment ends at 10 against a declared duration of 1
is rejected; the same segment against a declared duration of 10 is
accepted. -/
theorem C9_timing_invariants_enforced_witness :
    mkSegment 2 1 ("t") none none none = none ∧
    mkTranscriptOutput ("a.wav") [segBasic] ("aaaaaaaaaaaaaaaaaaaa") 1 ("en")
      ("large-v3") 0 ("aaaaaaaaaa") = none ∧
    (mkTranscriptOutput ("a.wav") [segBasic] ("aaaaaaaaaaaaaaaaaaaa") 10 ("en")
      ("large-v3") 0 ("aaaaaaaaaa")).isSome = true :=
  ⟨C9_timing_invariants_enforced.1 2 1 ("t") none none none (by norm_num),
   C9_timing_invariants_enforced.2.1 ("a.wav") [segBasic] ("aaaaaaaaaaaaaaaaaaaa") 1
     ("en") ("large-v3") 0 ("aaaaaaaaaa") (by norm_num) (by decide),
   C9_timing_invariants_enforced.2.2 ("a.wav") [segBasic] ("aaaaaaaaaaaaaaaaaaaa") 10
     ("en") ("large-v3") 0 ("aaaaaaaaaa") (by decide) (by decide) (by decide)
     (by norm_num) (by decide) (by decide) (by decide) (by decide)⟩

/-! ### Claim C2 -/

/-- Counterexample to C2 as stated: an EnrichedNotes whose single found
reference appears in both verifications and unverified_references is
accepted by the constructor, although the reference does not appear in
exactly one of the two lists; the validator only demands coverage by at
least one. -/
theorem C2_counterexample_both_lists_accepted :
    (mkEnrichedNotes ("t.json") ("hello transcript text line") [c2Ref] [c2Ver]
      [] c2Idx 0 [c2Ref] ("summary ten") none).isSome = true ∧
    ¬ specExactlyOneCoverage [c2Ref] [c2Ver] [c2Ref] := by
  constructor
  · decide
  · unfold specExactlyOneCoverage
    decide

/-- C2 amended: EnrichedNotes construction (under the remaining field
constraints) succeeds exactly when every found reference appears, by
canonical_ref, in at least one of verifications and unverified_references;
in particular a reference in neither list is rejected and a reference in
exactly one list is accepted. -/
theorem C2_found_refs_covered_iff
    (st tt : String) (refs : List Reference) (vers : List VerificationResult)
    (gl : List GlossaryEntry) (ti : ThematicIndex) (vr : ℚ)
    (unv : List Reference) (sm : String) (md : Option String)
    (h1 : 1 ≤ st.length) (h2 : 20 ≤ tt.length) (h3 : 0 ≤ vr) (h4 : vr ≤ 1)
    (h5 : 10 ≤ sm.length) :
    (mkEnrichedNotes st tt refs vers gl ti vr unv sm md).isSome = true ↔
      ∀ r ∈ refs,
        (∃ v ∈ vers, v.reference.canonical_ref = r.canonical_ref) ∨
        (∃ u ∈ unv, u.canonical_ref = r.canonical_ref) := by
  have hmiss : refsMissingVerification refs vers unv = [] ↔
      ∀ r ∈ refs,
        (∃ v ∈ vers, v.reference.canonical_ref = r.canonical_ref) ∨
        (∃ u ∈ unv, u.canonical_ref = r.canonical_ref) := by
    simp only [refsMissingVerification, List.filter_eq_nil_iff, Bool.and_eq_true,
      List.all_eq_true, decide_eq_true_eq, not_and_or, not_forall]
    constructor
    · intro h r hr
      rcases h r hr with hv | hu
      · rcases hv with ⟨v, hvmem, hvne⟩
        exact Or.inl ⟨v, hvmem, by simpa using hvne⟩
      · rcases hu with ⟨u, humem, hune⟩
        exact Or.inr ⟨u, humem, by simpa using hune⟩
    · intro h r hr
      rcases h r hr with ⟨v, hvmem, hveq⟩ | ⟨u, humem, hueq⟩
      · exact Or.inl ⟨v, hvmem, by simpa using hveq⟩
      · exact Or.inr ⟨u, humem, by simpa using hueq⟩
  simp only [mkEnrichedNotes]
  split_ifs with g1 g2 g3 g4 g5 g6
  · omega
  · omega
  · linarith
  · linarith
  · omega
  · simp only [Option.isSome_none, Bool.false_eq_true, false_iff]
    intro hcov
    exact g6 (hmiss.mpr hcov)
  all_goals
    simp only [Option.isSome_some, true_iff]
    exact hmiss.mp (by simpa using g6)

/-- Witness for C2 amended: the single found reference appears exactly in
verifications, and construction succeeds. -/
theorem C2_found_refs_covered_iff_witness :
    (mkEnrichedNotes ("t.json") ("hello transcript text line") [c2Ref] [c2Ver]
      [] c2Idx 0 [] ("summary ten") none).isSome = true ↔
      ∀ r ∈ [c2Ref],
        (∃ v ∈ [c2Ver], v.reference.canonical_ref = r.canonical_ref) ∨
        (∃ u ∈ ([] : List Reference), u.canonical_ref = r.canonical_ref) :=
  C2_found_refs_covered_iff ("t.json") ("hello transcript text line") [c2Ref]
    [c2Ver] [] c2Idx 0 [] ("summary ten") none (by decide) (by decide)
    (by norm_num) (by norm_num) (by decide)

/-! ### Claim C8 -/

/-- C8: the content_density check passes exactly when the words-per-minute
value is at least 10 (inclusive boundary), is skipped (reported passed,
with a Skipped message) whenever the audio duration is under 30 seconds,
exactly 10 words per minute passes, and 9.99 words per minute fails. -/
theorem C8_content_density_boundary :
    (∀ t : TranscriptOutput, t.duration_seconds < 30 →
      check_content_density t =
        { check_name := "content_density", passed := true,
          severity := CheckSeverity.critical,
          message := "Skipped: audio too short" }) ∧
    (∀ t : TranscriptOutput, 30 ≤ t.duration_seconds →
      ((check_content_density t).passed = true ↔ 10 ≤ wordsPerMinute t)) ∧
    wordsPerMinute c8Exact10 = 10 ∧
    (check_content_density c8Exact10).passed = true ∧
    wordsPerMinute c8Low = 999/100 ∧
    (check_content_density c8Low).passed = false := by
  refine ⟨?_, ?_, by decide, by decide, by decide, by decide⟩
  · intro t h
    simp only [check_content_density]
    rw [if_pos (by linarith : t.duration_seconds / 60 < 1/2)]
  · intro t h
    simp only [check_content_density]
    rw [if_neg (by linarith : ¬ t.duration_seconds / 60 < 1/2)]
    simp [VALIDATION_MIN_WORDS_PER_MINUTE]

/-- Witness for C8: the skip clause at a 10-second transcript and the
boundary clause at the exactly-10-words-per-minute transcript. -/
theorem C8_content_density_boundary_witness :
    check_content_density c8Short =
      { check_name := "content_density", passed := true,
        severity := CheckSeverity.critical,
        message := "Skipped: audio too short" } ∧
    ((check_content_density c8Exact10).passed = true ↔
      10 ≤ wordsPerMinute c8Exact10) :=
  ⟨C8_content_density_boundary.1 c8Short (by decide),
   C8_content_density_boundary.2.1 c8Exact10 (by decide)⟩

/-! ### Claim C7 -/

theorem foldl_max_le_iff {α : Type} [LinearOrder α] (l : List α) (a c : α) :
    l.foldl max a ≤ c ↔ a ≤ c ∧ ∀ x ∈ l, x ≤ c := by
  induction l generalizing a with
  | nil => simp
  | cons x xs ih =>
    simp only [List.foldl_cons, ih, max_le_iff, List.mem_cons]
    constructor
    · rintro ⟨⟨hac, hxc⟩, hall⟩
      exact ⟨hac, fun y hy => hy.elim (fun h => h ▸ hxc) (hall y)⟩
    · rintro ⟨hac, hall⟩
      exact ⟨⟨hac, hall x (Or.inl rfl)⟩, fun y hy => hall y (Or.inr hy)⟩

theorem foldl_max_replicate {α : Type} [LinearOrder α] (n : Nat) (v a : α) :
    (List.replicate n v).foldl max a = if n = 0 then a else max a v := by
  induction n generalizing a with
  | zero => simp
  | succ k ih =>
    rw [List.replicate_succ, List.foldl_cons, ih]
    rcases Nat.eq_zero_or_pos k with hk | hk
    · subst hk
      simp
    · rw [if_neg (by omega), if_neg (by omega), max_assoc, max_self]

theorem mostCommonCount_replicate (n : Nat) (t : String) :
    mostCommonCount (List.replicate n t) = n := by
  unfold mostCommonCount
  rw [List.map_replicate, List.count_replicate_self, foldl_max_replicate]
  cases n <;> simp

/-- Every sliding window of a segment list whose stripped texts all equal t
is the 50-fold replication of t, provided at least 50 segments exist. -/
theorem windowTexts_uniform (segs : List Segment) (t : String)
    (hall : ∀ s ∈ segs, pyStrip s.text = t)
    (hlen : VALIDATION_SLIDING_WINDOW_SIZE ≤ segs.length) :
    ∀ w ∈ windowTexts segs, w = List.replicate VALIDATION_SLIDING_WINDOW_SIZE t := by
  intro w hw
  simp only [windowTexts, List.mem_map, List.mem_range] at hw
  obtain ⟨i, hi, rfl⟩ := hw
  rw [List.eq_replicate_iff]
  constructor
  · simp only [List.length_map, List.length_take, List.length_drop]
    unfold VALIDATION_SLIDING_WINDOW_SIZE at hlen hi ⊢
    omega
  · intro b hb
    simp only [List.mem_map] at hb
    obtain ⟨s, hs, rfl⟩ := hb
    exact hall s (List.mem_of_mem_drop (List.mem_of_mem_take hs))

/-- A transcript whose stripped segment texts are all identical, with at
least one full window, has worst repetition share 1. -/
theorem worstShare_uniform (segs : List Segment) (t : String)
    (hall : ∀ s ∈ segs, pyStrip s.text = t)
    (hlen : VALIDATION_SLIDING_WINDOW_SIZE ≤ segs.length) :
    worstShare segs = 1 := by
  unfold worstShare
  have hmap : (windowTexts segs).map windowShare =
      List.replicate (segs.length - VALIDATION_SLIDING_WINDOW_SIZE + 1) 1 := by
    rw [List.eq_replicate_iff]
    constructor
    · simp [windowTexts]
    · intro b hb
      simp only [List.mem_map] at hb
      obtain ⟨w, hw, rfl⟩ := hb
      rw [windowTexts_uniform segs t hall hlen w hw]
      unfold windowShare
      rw [mostCommonCount_replicate]
      norm_num [VALIDATION_SLIDING_WINDOW_SIZE]
  rw [hmap, foldl_max_replicate]
  rw [if_neg (by omega)]
  norm_num

theorem c7T_worstShare : worstShare c7T.segments = 1 := by
  apply worstShare_uniform c7T.segments amaraText
  · intro s hs
    simp only [c7T, List.mem_map] at hs
    obtain ⟨i, -, rfl⟩ := hs
    show pyStrip amaraText = amaraText
    decide
  · decide

theorem c7T_sliding_eval : check_sliding_window_repetition c7T = c7SlidingFail := by
  unfold check_sliding_window_repetition
  rw [if_neg (by decide)]
  rw [c7T_worstShare]
  norm_num [VALIDATION_SLIDING_REPETITION_THRESHOLD, c7SlidingFail]

set_option maxRecDepth 8000 in
theorem c7_checks_eval :
    allValidationChecks c7T eBasic =
      [c7SlidingFail,
       { check_name := "content_density", passed := true,
         severity := CheckSeverity.critical, message := "OK: enough words per minute" },
       { check_name := "segment_gap_analysis", passed := true,
         severity := CheckSeverity.warning, message := "OK: no large gaps detected" },
       { check_name := "low_confidence", passed := true,
         severity := CheckSeverity.warning,
         message := "Skipped: no confidence scores available" },
       { check_name := "language_consistency", passed := true,
         severity := CheckSeverity.warning,
         message := "Skipped: no per-segment language data" },
       { check_name := "verification_rate", passed := true,
         severity := CheckSeverity.warning,
         message := "Skipped: no references found to verify" },
       { check_name := "cross_reference_consistency", passed := true,
         severity := CheckSeverity.warning,
         message := "OK: all thematic references are verified" },
       { check_name := "enriched_markdown_repetition", passed := true,
         severity := CheckSeverity.warning,
         message := "Skipped: no enriched markdown present" },
       { check_name := "empty_enrichment", passed := true,
         severity := CheckSeverity.warning, message := "OK: enrichment has content" },
       { check_name := "llm_speculative_content", passed := true,
         severity := CheckSeverity.warning,
         message := "Skipped: no enriched markdown present" },
       { check_name := "unverified_refs_in_markdown", passed := true,
         severity := CheckSeverity.warning,
         message := "Skipped: no enriched markdown present" },
       { check_name := "enriched_markdown_sections", passed := true,
         severity := CheckSeverity.warning,
         message := "Skipped: no enriched markdown present" },
       { check_name := "metadata_duration_consistency", passed := true,
         severity := CheckSeverity.warning, message := "OK: duration consistent" }] := by
  unfold allValidationChecks
  rw [c7T_sliding_eval]
  decide

/-- C7: the sliding_window_repetition check is skipped (reported passed)
for fewer than 50 segments; with at least 50 segments it fails exactly when
some contiguous window of 50 has a most-frequent stripped text occupying
strictly more than the 0.6 threshold; the concrete 60-identical-segment
transcript has repetition share 1, fails the check, and running the
validation pipeline on it raises an error whose message names
sliding_window_repetition under the CRITICAL heading. -/
theorem C7_sliding_window_repetition :
    (∀ t : TranscriptOutput,
      t.segments.length < VALIDATION_SLIDING_WINDOW_SIZE →
      check_sliding_window_repetition t =
        { check_name := "sliding_window_repetition", passed := true,
          severity := CheckSeverity.critical,
          message := "Skipped: fewer segments than window size" }) ∧
    (∀ t : TranscriptOutput,
      VALIDATION_SLIDING_WINDOW_SIZE ≤ t.segments.length →
      ((check_sliding_window_repetition t).passed = false ↔
        ∃ w ∈ windowTexts t.segments,
          VALIDATION_SLIDING_REPETITION_THRESHOLD < windowShare w)) ∧
    worstShare c7T.segments = 1 ∧
    check_sliding_window_repetition c7T = c7SlidingFail ∧
    runValidationPipeline c7T eBasic = Except.error c7Summary ∧
    (∃ pre post, c7Summary = pre ++ ("CRITICAL: sliding_window_repetition") ++ post) := by
  refine ⟨?_, ?_, c7T_worstShare, c7T_sliding_eval, ?_, ?_⟩
  · intro t h
    unfold check_sliding_window_repetition
    rw [if_pos h]
  · intro t h
    unfold check_sliding_window_repetition
    rw [if_neg (by omega)]
    simp only [decide_eq_false_iff_not, not_le]
    unfold worstShare
    constructor
    · intro hgt
      by_contra hnone
      push_neg at hnone
      have := (foldl_max_le_iff ((windowTexts t.segments).map windowShare) 0
        VALIDATION_SLIDING_REPETITION_THRESHOLD).mpr
        ⟨by norm_num [VALIDATION_SLIDING_REPETITION_THRESHOLD], by
          intro x hx
          simp only [List.mem_map] at hx
          obtain ⟨w, hw, rfl⟩ := hx
          exact hnone w hw⟩
      exact absurd this (not_le.mpr hgt)
    · rintro ⟨w, hw, hshare⟩
      by_contra hle
      push_neg at hle
      have := ((foldl_max_le_iff ((windowTexts t.segments).map windowShare) 0
        VALIDATION_SLIDING_REPETITION_THRESHOLD).mp hle).2
        (windowShare w) (List.mem_map_of_mem windowShare hw)
      exact absurd hshare (not_lt.mpr this)
  · unfold runValidationPipeline
    rw [c7_checks_eval]
    rfl
  · exact ⟨"Validation failed — 1 ", ".", by decide⟩

/-- Witness for C7: the skip clause at a one-segment transcript and the
window characterisation at the 60-segment transcript. -/
theorem C7_sliding_window_repetition_witness :
    check_sliding_window_repetition c7Small =
      { check_name := "sliding_window_repetition", passed := true,
        severity := CheckSeverity.critical,
        message := "Skipped: fewer segments than window size" } ∧
    ((check_sliding_window_repetition c7T).passed = false ↔
      ∃ w ∈ windowTexts c7T.segments,
        VALIDATION_SLIDING_REPETITION_THRESHOLD < windowShare w) :=
  ⟨C7_sliding_window_repetition.1 c7Small (by decide),
   C7_sliding_window_repetition.2.1 c7T (by decide)⟩

/-! ### Claim C3 -/

theorem strContainsSub_appendL (x y u : String) :
    strContainsSub x u → strContainsSub (x ++ y) u := by
  rintro ⟨a, b, rfl⟩
  exact ⟨a, b ++ y, by simp [String.append_assoc]⟩

theorem strContainsSub_appendR (x y u : String) :
    strContainsSub y u → strContainsSub (x ++ y) u := by
  rintro ⟨a, b, rfl⟩
  exact ⟨x ++ a, b, by simp [String.append_assoc]⟩

theorem strContainsSub_refl (u : String) : strContainsSub u u :=
  ⟨"", "", by simp⟩

theorem strContainsSub_trans {s t u : String} :
    strContainsSub s t → strContainsSub t u → strContainsSub s u := by
  rintro ⟨p, q, rfl⟩ ⟨a, b, rfl⟩
  exact ⟨p ++ a, b ++ q, by simp [String.append_assoc]⟩

theorem joinSep_substr (sep : String) (l : List String) (x : String)
    (hx : x ∈ l) : strContainsSub (joinSep sep l) x := by
  induction l with
  | nil => cases hx
  | cons y ys ih =>
    rcases List.mem_cons.mp hx with rfl | hmem
    · cases ys with
      | nil => exact strContainsSub_refl x
      | cons z zs =>
        show strContainsSub (x ++ sep ++ joinSep sep (z :: zs)) x
        exact strContainsSub_appendL _ _ _ (strContainsSub_appendL _ _ _
          (strContainsSub_refl x))
    · cases ys with
      | nil => cases hmem
      | cons z zs =>
        show strContainsSub (y ++ sep ++ joinSep sep (z :: zs)) x
        exact strContainsSub_appendR _ _ _ (ih hmem)

/-- Every failing check name occurs inside the built summary. -/
theorem buildSummary_contains_failing_names (checks : List CheckResult)
    (c : CheckResult) (hc : c ∈ checks) (hfail : c.passed = false) :
    strContainsSub (buildSummary checks) c.check_name := by
  have hcf : c ∈ checks.filter (fun c => !c.passed) :=
    List.mem_filter.mpr ⟨hc, by simp [hfail]⟩
  unfold buildSummary
  rw [if_neg (by
    intro h
    rw [List.isEmpty_iff] at h
    rw [h] at hcf
    cases hcf)]
  apply strContainsSub_appendL
  apply strContainsSub_appendR
  cases hsev : c.severity with
  | critical =>
    have hmem : c ∈ (checks.filter (fun c => !c.passed)).filter
        (fun c => c.severity == CheckSeverity.critical) :=
      List.mem_filter.mpr ⟨hcf, by simp [hsev]⟩
    have hne : ¬((checks.filter (fun c => !c.passed)).filter
        (fun c => c.severity == CheckSeverity.critical)).isEmpty = true := by
      intro h
      rw [List.isEmpty_iff] at h
      rw [h] at hmem
      cases hmem
    apply strContainsSub_trans (t := toString ((checks.filter (fun c => !c.passed)).filter
      (fun c => c.severity == CheckSeverity.critical)).length ++ " CRITICAL: " ++
      joinSep ("; ") (((checks.filter (fun c => !c.passed)).filter
        (fun c => c.severity == CheckSeverity.critical)).map (fun c => c.check_name)))
    · apply joinSep_substr
      apply List.mem_append_left
      rw [if_neg hne]
      exact List.mem_cons_self _ _
    · apply strContainsSub_appendR
      exact joinSep_substr _ _ _ (List.mem_map_of_mem _ hmem)
  | warning =>
    have hmem : c ∈ (checks.filter (fun c => !c.passed)).filter
        (fun c => c.severity == CheckSeverity.warning) :=
      List.mem_filter.mpr ⟨hcf, by simp [hsev]⟩
    have hne : ¬((checks.filter (fun c => !c.passed)).filter
        (fun c => c.severity == CheckSeverity.warning)).isEmpty = true := by
      intro h
      rw [List.isEmpty_iff] at h
      rw [h] at hmem
      cases hmem
    apply strContainsSub_trans (t := toString ((checks.filter (fun c => !c.passed)).filter
      (fun c => c.severity == CheckSeverity.warning)).length ++ " WARNING: " ++
      joinSep ("; ") (((checks.filter (fun c => !c.passed)).filter
        (fun c => c.severity == CheckSeverity.warning)).map (fun c => c.check_name)))
    · apply joinSep_substr
      apply List.mem_append_right
      rw [if_neg hne]
      exact List.mem_cons_self _ _
    · apply strContainsSub_appendR
      exact joinSep_substr _ _ _ (List.mem_map_of_mem _ hmem)

theorem countP_partition {α : Type} (l : List α) (p q : α → Bool) :
    (l.filter p).countP q + (l.filter (fun a => !(p a))).countP q = l.countP q := by
  induction l with
  | nil => simp
  | cons x xs ih =>
    by_cases hp : p x <;> by_cases hq : q x <;>
      simp [List.filter_cons, List.countP_cons, hp, hq] <;> omega

theorem buildSummary_length (checks : List CheckResult) :
    1 ≤ (buildSummary checks).length := by
  unfold buildSummary
  dsimp only
  split
  · rw [String.length_append, String.length_append]
    have h4 : ("All " : String).length = 4 := rfl
    omega
  · rw [String.length_append, String.length_append]
    have h20 : ("Validation failed — " : String).length = 20 := rfl
    omega

/-- The two observable outcomes of the embedded gate: return the report
when no critical check fails, raise the summary otherwise. -/
theorem runVP_spec (t : TranscriptOutput) (e : EnrichedNotes) :
    (countCriticalFailures (allValidationChecks t e) = 0 →
      ∃ r, runValidationPipeline t e = Except.ok r ∧ r.overall_pass = true ∧
        r.critical_failures = 0) ∧
    (countCriticalFailures (allValidationChecks t e) ≠ 0 →
      runValidationPipeline t e =
        Except.error (buildSummary (allValidationChecks t e))) := by
  have hpart :
      countCriticalFailures
        (((allValidationChecks t e).filter
            (fun c => transcriptCheckNames.contains c.check_name)) ++
          ((allValidationChecks t e).filter
            (fun c => !(transcriptCheckNames.contains c.check_name)))) =
      countCriticalFailures (allValidationChecks t e) := by
    unfold countCriticalFailures
    rw [List.countP_append]
    exact countP_partition _ _ _
  have hmk : mkValidationReport
      ((allValidationChecks t e).filter
        (fun c => transcriptCheckNames.contains c.check_name))
      ((allValidationChecks t e).filter
        (fun c => !(transcriptCheckNames.contains c.check_name)))
      true 0 0 (buildSummary (allValidationChecks t e)) = some
      { transcript_checks := (allValidationChecks t e).filter
          (fun c => transcriptCheckNames.contains c.check_name),
        enrichment_checks := (allValidationChecks t e).filter
          (fun c => !(transcriptCheckNames.contains c.check_name)),
        overall_pass := countCriticalFailures (allValidationChecks t e) == 0,
        critical_failures := countCriticalFailures (allValidationChecks t e),
        warnings := countWarningFailures
          (((allValidationChecks t e).filter
              (fun c => transcriptCheckNames.contains c.check_name)) ++
            ((allValidationChecks t e).filter
              (fun c => !(transcriptCheckNames.contains c.check_name)))),
        summary := buildSummary (allValidationChecks t e) } := by
    simp only [mkValidationReport]
    rw [if_neg (by norm_num), if_neg (by norm_num),
      if_neg (not_lt.mpr (buildSummary_length _))]
    rw [hpart]
  constructor
  · intro h
    simp only [runValidationPipeline]
    rw [hmk]
    dsimp only
    rw [if_pos (by simp [h])]
    refine ⟨_, rfl, ?_, ?_⟩ <;> simp [h]
  · intro h
    simp only [runValidationPipeline]
    rw [hmk]
    dsimp only
    rw [if_neg (by simp [h])]

/-- Counterexample to C3 as stated: at this (transcript, enriched) pair a
CRITICAL check (content_density) fails and run_validation_pipeline itself
raises ValidationError with the summary, instead of returning the
ValidationReport and leaving the raising to the orchestrator. -/
theorem C3_counterexample_gate_itself_raises :
    runValidationPipeline c3T eBasic =
      Except.error ("Validation failed — 1 CRITICAL: content_density.") := by
  rfl

/-- C3 amended: the Quality Gate itself raises.  run_validation_pipeline
returns the report exactly when no CRITICAL check fails (and then
overall_pass is true); when some CRITICAL check fails the gate raises a
ValidationError whose message is the built summary, in which every failing
check name appears (grouped under the CRITICAL and WARNING headings by
construction of the summary). -/
theorem C3_gate_raises_on_critical (t : TranscriptOutput) (e : EnrichedNotes) :
    ((runValidationPipeline t e).isOk = true ↔
      countCriticalFailures (allValidationChecks t e) = 0) ∧
    (∀ r, runValidationPipeline t e = Except.ok r → r.overall_pass = true) ∧
    (∀ s, runValidationPipeline t e = Except.error s →
      countCriticalFailures (allValidationChecks t e) ≠ 0 ∧
      s = buildSummary (allValidationChecks t e) ∧
      ∀ c ∈ allValidationChecks t e, c.passed = false →
        strContainsSub s c.check_name) := by
  refine ⟨?_, ?_, ?_⟩
  · by_cases h : countCriticalFailures (allValidationChecks t e) = 0
    · obtain ⟨r, hr, -, -⟩ := (runVP_spec t e).1 h
      rw [hr]
      simp [h, Except.isOk, Except.toBool]
    · rw [(runVP_spec t e).2 h]
      simp [h, Except.isOk, Except.toBool]
  · intro r hr
    by_cases h : countCriticalFailures (allValidationChecks t e) = 0
    · obtain ⟨r', hr', hp, -⟩ := (runVP_spec t e).1 h
      rw [hr'] at hr
      injection hr with hr2
      rw [← hr2]
      exact hp
    · rw [(runVP_spec t e).2 h] at hr
      exact Except.noConfusion hr
  · intro s hs
    by_cases h : countCriticalFailures (allValidationChecks t e) = 0
    · obtain ⟨r, hr, -, -⟩ := (runVP_spec t e).1 h
      rw [hr] at hs
      exact Except.noConfusion hs
    · rw [(runVP_spec t e).2 h] at hs
      injection hs with hs2
      subst hs2
      exact ⟨h, rfl, fun c hc hfail =>
        buildSummary_contains_failing_names _ c hc hfail⟩

/-- Witness for C3 amended: the error clause instantiated at the
content_density-failing pair. -/
theorem C3_gate_raises_on_critical_witness :
    countCriticalFailures (allValidationChecks c3T eBasic) ≠ 0 ∧
    ("Validation failed — 1 CRITICAL: content_density.") =
      buildSummary (allValidationChecks c3T eBasic) ∧
    ∀ c ∈ allValidationChecks c3T eBasic, c.passed = false →
      strContainsSub ("Validation failed — 1 CRITICAL: content_density.")
        c.check_name :=
  (C3_gate_raises_on_critical c3T eBasic).2.2 _ (by rfl)

/-! ### Claim C4 -/

theorem collectMissing_eq_filter (fa : Nat) (fs : CkptFS) (n : Nat) :
    collectMissing fa fs n =
      (requiredCheckpointFiles fa n).filter (fun p => !(fs.files.contains p)) := by
  unfold collectMissing requiredCheckpointFiles
  rw [List.filter_append, List.filter_append, List.filter_append]
  by_cases h1 : fs.files.contains manifestPath <;>
    by_cases h3 : 3 ≤ fa <;>
    by_cases h4 : 4 ≤ fa <;>
    by_cases h5 : 5 ≤ fa <;>
    by_cases hb : fs.files.contains bookOutputPath <;>
    simp [h1, h3, h4, h5, hb, List.filter_cons, List.filter_nil]

/-- Counterexample to C4 as stated: resuming at stage 5 with no
source_count supplied and an empty checkpoint directory raises the early
manifest error, whose message names only the manifest path, although
book_output.json is also a required missing checkpoint for stage 5; the
raised error does not enumerate every missing path. -/
theorem C4_counterexample_early_error_not_exhaustive :
    validate_checkpoints_for_from_agent 5 c4EmptyFS none =
      Except.error (CkptError.manifestMissingNoCount 5 manifestPath) ∧
    bookOutputPath ∈ requiredCheckpointFiles 5 0 ∧
    bookOutputPath ∉ ckptErrPaths (CkptError.manifestMissingNoCount 5 manifestPath) ∧
    bookOutputPath ∉ c4EmptyFS.files := by
  exact ⟨rfl, by decide, by decide, by decide⟩

/-- C4 amended: for from_stage in [2,5], when the source count resolves
(supplied, or inferred from an existing manifest by counting successful
entries) the pre-flight check succeeds exactly when every required
checkpoint file exists, and on failure the aggregated error enumerates
exactly the missing required paths in collection order; but when
source_count is not supplied and the manifest is missing, the check raises
the early error naming only the manifest path. -/
theorem C4_preflight_resumability :
    (∀ (fa : Nat) (fs : CkptFS) (uc : Option Nat) (n : Nat),
      2 ≤ fa → fa ≤ 5 → resolvedCount fs uc = some n →
      ((validate_checkpoints_for_from_agent fa fs uc = Except.ok () ↔
        ∀ f ∈ requiredCheckpointFiles fa n, f ∈ fs.files) ∧
       (∀ e, validate_checkpoints_for_from_agent fa fs uc = Except.error e →
        ckptErrPaths e = (requiredCheckpointFiles fa n).filter
          (fun p => !(fs.files.contains p)) ∧
        (requiredCheckpointFiles fa n).filter
          (fun p => !(fs.files.contains p)) ≠ []))) ∧
    (∀ (fa : Nat) (fs : CkptFS), 2 ≤ fa →
      fs.files.contains manifestPath = false →
      validate_checkpoints_for_from_agent fa fs none =
        Except.error (CkptError.manifestMissingNoCount fa manifestPath)) ∧
    (∀ (fs : CkptFS), fs.files.contains manifestPath = true →
      resolvedCount fs none = some (successCount fs.manifestData)) := by
  have hiff : ∀ (fa : Nat) (fs : CkptFS) (n : Nat),
      ((collectMissing fa fs n).isEmpty = true ↔
        ∀ f ∈ requiredCheckpointFiles fa n, f ∈ fs.files) := by
    intro fa fs n
    rw [collectMissing_eq_filter, List.isEmpty_iff, List.filter_eq_nil_iff]
    simp [List.elem_iff]
  refine ⟨?_, ?_, ?_⟩
  · intro fa fs uc n hfa2 _hfa5 hres
    unfold validate_checkpoints_for_from_agent
    rw [if_neg (by omega), hres]
    dsimp only
    constructor
    · constructor
      · intro hok
        by_cases hemp : (collectMissing fa fs n).isEmpty
        · exact (hiff fa fs n).mp hemp
        · rw [if_neg hemp] at hok
          exact Except.noConfusion hok
      · intro hall
        rw [if_pos ((hiff fa fs n).mpr hall)]
    · intro e he
      by_cases hemp : (collectMissing fa fs n).isEmpty
      · rw [if_pos hemp] at he
        exact Except.noConfusion he
      · rw [if_neg hemp] at he
        injection he with he2
        subst he2
        refine ⟨collectMissing_eq_filter fa fs n, ?_⟩
        rw [← collectMissing_eq_filter fa fs n]
        intro hnil
        exact hemp (List.isEmpty_iff.mpr hnil)
  · intro fa fs hfa2 hman
    unfold validate_checkpoints_for_from_agent
    rw [if_neg (by omega)]
    unfold resolvedCount
    dsimp only
    rw [if_neg (by rw [hman]; exact Bool.false_ne_true)]
  · intro fs hman
    unfold resolvedCount
    dsimp only
    rw [if_pos hman]

/-- Witness for C4 amended: resuming at stage 3 with two sources while
url_002_transcript.json is absent. -/
theorem C4_preflight_resumability_witness :
    (validate_checkpoints_for_from_agent 3 c4FS (some 2) = Except.ok () ↔
      ∀ f ∈ requiredCheckpointFiles 3 2, f ∈ c4FS.files) ∧
    (∀ e, validate_checkpoints_for_from_agent 3 c4FS (some 2) = Except.error e →
      ckptErrPaths e = (requiredCheckpointFiles 3 2).filter
        (fun p => !(c4FS.files.contains p)) ∧
      (requiredCheckpointFiles 3 2).filter
        (fun p => !(c4FS.files.contains p)) ≠ []) :=
  C4_preflight_resumability.1 3 c4FS (some 2) 2 (by decide) (by decide) (by rfl)

/-! ### Claim C6 -/

/-- C6 fails on the code: in a 2-source run where source 1 fails
transcription and source 2 survives to validation, the transcript and
enriched checkpoints for the survivor are keyed by its source order 2, but
its ValidationReport is saved under url_001_validation.json, because phase
3.5 enumerates the surviving zip and uses order := i + 1
(orchestrator.py:522), not the source order.  The spec keys every
checkpoint by (stage, source order). -/
theorem C6_validation_checkpoint_miskeyed :
    (runMultiUrlPipeline ["u1", "u2"] ("T") c6Download c6Transcribe c6Enrich).saved =
      [manifestPath, transcriptPath 2, enrichedPath 2, validationPath 1,
       bookOutputPath] ∧
    validationPath 2 ∉
      (runMultiUrlPipeline ["u1", "u2"] ("T") c6Download c6Transcribe c6Enrich).saved ∧
    (∃ s ∈ (runMultiUrlPipeline ["u1", "u2"] ("T") c6Download c6Transcribe
        c6Enrich).states,
      s.url = "u2" ∧ s.order = 2 ∧ s.status = URLStatus.enriched) := by
  refine ⟨by rfl, by decide, ?_⟩
  refine ⟨{ url := "u2", order := 2, status := URLStatus.enriched,
            audio_path := some ("a2.wav"), error := none }, by decide, rfl, rfl, rfl⟩

/-! ### Claim C5 -/

/-- C5 fails on the code only at the last step: with 3 sources where source
2 raises in Transcribe, the batch is not aborted — sources 1 and 3 are
transcribed, enriched, validated and compiled into a two-chapter book in
original order, the book checkpoint is written, and the error list
attributes the failure to source 2 — but run_multi_url_pipeline then
evaluates URLStatus.VALIDATED (orchestrator.py:572), a member the enum does
not define (schemas/pipeline_state.py), so the run raises AttributeError
instead of returning the BookOutput. -/

theorem C5_partial_failure_tolerated_but_return_crashes :
    runCompilerPipelineMulti [eBasic, eBasic] [c5T1, c5T3] ("T") =
      Except.ok c5Book ∧
    c5Book.chapters.length = 2 ∧ c5Book.report.total_chapters = 2 ∧
    c5Book.chapters.map (fun c => c.source_url) = ["a1.wav", "a3.wav"] ∧
    bookOutputPath ∈
      (runMultiUrlPipeline ["u1", "u2", "u3"] ("T") c5Download c5Transcribe
        c5Enrich).saved ∧
    ErrorEntry.urlError ("u2") ("Whisper OOM") ∈
      (runMultiUrlPipeline ["u1", "u2", "u3"] ("T") c5Download c5Transcribe
        c5Enrich).errors ∧
    (runMultiUrlPipeline ["u1", "u2", "u3"] ("T") c5Download c5Transcribe
        c5Enrich).result = Except.error ("AttributeError: VALIDATED") := by
  exact ⟨by rfl, by decide, by decide, by decide, by decide, by decide, by rfl⟩

/-! ### Claim C10 -/

/-- C10 fails on the code: run_single_url_pipeline never reaches
run_validation_pipeline for any from_agent, because step 3.5 first assigns
url_state.status = URLStatus.VALIDATING (orchestrator.py:233) and the
URLStatus enum defines no VALIDATING member, so every single-URL run —
including a from_agent=5 resume with all checkpoints present, and a fresh
from_agent=1 run — fails at the validation step with the wrapped
AttributeError and url_001_validation.json is never saved. -/
theorem C10_single_run_never_reaches_validation :
    ((runSingleUrlPipeline ("u1") 5 c10FS c10Download c10Transcribe c10Enrich
        (some c10Manifest) (some c10T) (some eBasic)).result =
      Except.error ("Pipeline failed for u1: VALIDATING")) ∧
    validationPath 1 ∉
      (runSingleUrlPipeline ("u1") 5 c10FS c10Download c10Transcribe c10Enrich
        (some c10Manifest) (some c10T) (some eBasic)).saved ∧
    ((runSingleUrlPipeline ("u1") 1 c10FS c10Download c10Transcribe c10Enrich
        none none none).result =
      Except.error ("Pipeline failed for u1: VALIDATING")) ∧
    transcriptPath 1 ∈
      (runSingleUrlPipeline ("u1") 1 c10FS c10Download c10Transcribe c10Enrich
        none none none).saved ∧
    enrichedPath 1 ∈
      (runSingleUrlPipeline ("u1") 1 c10FS c10Download c10Transcribe c10Enrich
        none none none).saved ∧
    validationPath 1 ∉
      (runSingleUrlPipeline ("u1") 1 c10FS c10Download c10Transcribe c10Enrich
        none none none).saved := by
  exact ⟨by rfl, by decide, by rfl, by decide, by decide, by decide⟩

end LectureToNotes
